import Mathlib

/-!
Verification of the numerical simulation core of app.py (2D thermal simulation on Mars).

The script is embedded shallowly over exact rational arithmetic:
the temperature field is a function from node indices to rationals, the numpy slice
assignments of the initial-condition section become field transformers applied in program
order, and the nested stencil loop becomes a structural recursion over the loop bounds that
writes each interior cell of a scratch buffer while reading only the previous field, exactly
as in the source.
-/

set_option maxHeartbeats 1000000

namespace App

/-- Truncation toward zero on a rational: the behavior of the Python int() conversion
applied to a real value, as used on lines 35, 36, 47, 52 and 54 of app.py. -/
def pyInt (q : ℚ) : ℤ := if 0 ≤ q then ⌊q⌋ else -⌊-q⌋

/-- Endpoint normalization of a Python slice over an axis of length n: a negative endpoint
counts from the end of the axis, and endpoints are clipped to the axis. -/
def sliceIdx (n v : ℤ) : ℤ := if v < 0 then max (v + n) 0 else min v n

/-- Membership of index i in the Python slice lo:hi over an axis of length n. -/
abbrev inSlice (n lo hi i : ℤ) : Prop := sliceIdx n lo ≤ i ∧ i < sliceIdx n hi

/-- The sidebar inputs of app.py, lines 8-20. -/
structure Config where
  domain_size_x_km : ℚ
  domain_size_y_km : ℚ
  vertical_body_width_km : ℚ
  horizontal_body_length_km : ℚ
  horizontal_body_depth_km : ℚ
  T_hot : ℚ
  T_surface : ℚ
  Tgradient : ℚ
  steps : ℕ

/-- Grid spacing in meters, line 27 of app.py. -/
def dx : ℚ := 50

/-- Grid spacing in meters, line 27 of app.py. -/
def dy : ℚ := 50

/-- Thermal diffusivity in square meters per second, line 28 of app.py. -/
def alpha : ℚ := 1 / 1000000

/-- Initial stable time step, line 32 of app.py. -/
def dt_initial : ℚ := 2 * dx ^ 2 / (4 * alpha) * (1 / 2)

/-- Time step used at a given frame of the loop, line 74 of app.py: the growth factor
written in the source is 0.00, so the step is in fact constant. -/
def dt_frame (frame : ℕ) : ℚ := dt_initial * (1 + 0 * (frame : ℚ))

/-- Number of nodes along x, line 35 of app.py. -/
def size_x (c : Config) : ℕ := (pyInt (c.domain_size_x_km * 1000 / dx)).toNat

/-- Number of nodes along y, line 36 of app.py. -/
def size_y (c : Config) : ℕ := (pyInt (c.domain_size_y_km * 1000 / dy)).toNat

/-- A temperature field: node indices to degrees Celsius. -/
abbrev Field := ℕ → ℕ → ℚ

/-- The allocation np.zeros((size_x, size_y)), line 38 of app.py. -/
def zeros : Field := fun _ _ => 0

/-- Entry j of np.linspace(0, domain_size_y_km, size_y), line 41 of app.py. -/
def depth (c : Config) (j : ℕ) : ℚ := c.domain_size_y_km * j / ((size_y c - 1 : ℕ) : ℚ)

/-- Horizontal center node, line 46 of app.py. -/
def x_center (c : Config) : ℕ := size_x c / 2

/-- Vertical body width in nodes, line 47 of app.py. -/
def width (c : Config) : ℤ := pyInt (c.vertical_body_width_km * 1000 / dx)

/-- End node of the horizontal body, line 52 of app.py. -/
def x_end (c : Config) : ℤ := (x_center c : ℤ) + pyInt (c.horizontal_body_length_km * 1000 / dx)

/-- Bottom node of the horizontal body, line 54 of app.py. -/
def y_end (c : Config) : ℤ := pyInt (c.horizontal_body_depth_km * 1000 / dy)

/-- The gradient loop of lines 42-43 of app.py: every column j of the grid is set to
the background geotherm. -/
def setGradient (c : Config) (f : Field) : Field := fun i j =>
  if i < size_x c ∧ j < size_y c then c.T_surface + c.Tgradient * depth c j else f i j

/-- The vertical body assignment of line 48 of app.py:
temperature[x_center - width//2 : x_center + width//2, :] = T_hot. -/
def setVertical (c : Config) (f : Field) : Field := fun i j =>
  if inSlice (size_x c) ((x_center c : ℤ) - (width c).fdiv 2)
      ((x_center c : ℤ) + (width c).fdiv 2) i ∧ j < size_y c
  then c.T_hot else f i j

/-- The horizontal body assignment of line 55 of app.py:
temperature[x_start : x_end, y_start : y_end] = T_hot with x_start = x_center, y_start = 0. -/
def setHorizontal (c : Config) (f : Field) : Field := fun i j =>
  if inSlice (size_x c) (x_center c) (x_end c) i ∧ inSlice (size_y c) 0 (y_end c) j
  then c.T_hot else f i j

/-- The surface clamp of line 58 of app.py: temperature[:, 0] = T_surface. -/
def clampSurface (c : Config) (f : Field) : Field := fun i j =>
  if i < size_x c ∧ j = 0 then c.T_surface else f i j

/-- The temperature field after the initial-condition section, lines 38-58 of app.py. -/
def temperature0 (c : Config) : Field :=
  clampSurface c (setHorizontal c (setVertical c (setGradient c zeros)))

/-- The right-hand side of the stencil assignment on lines 79-80 of app.py, reading the
previous field only. -/
def stencil (old : Field) (r : ℚ) (i j : ℕ) : ℚ :=
  old i j + r * (old (i + 1) j + old (i - 1) j + old i (j + 1) + old i (j - 1) - 4 * old i j)

/-- One assignment new_temperature[i, j] = ... into the scratch buffer, line 79 of app.py. -/
def writeCell (old : Field) (r : ℚ) (i j : ℕ) (buf : Field) : Field := fun a b =>
  if a = i ∧ b = j then stencil old r i j else buf a b

/-- The inner loop for j in range(1, size_y - 1) of line 78 of app.py, for a fixed row i:
the second argument counts the iterations, so columns 1 through mcol are written in
ascending order into the scratch buffer. -/
def sweepCols (old : Field) (r : ℚ) (i : ℕ) : ℕ → Field → Field
  | 0, buf => buf
  | mcol + 1, buf => writeCell old r i (mcol + 1) (sweepCols old r i mcol buf)

/-- The outer loop for i in range(1, size_x - 1) of line 77 of app.py: rows 1 through mrow
are swept in ascending order, each row running the inner column loop. -/
def sweepRows (old : Field) (r : ℚ) : ℕ → ℕ → Field → Field
  | 0, _, buf => buf
  | mrow + 1, mcol, buf => sweepCols old r (mrow + 1) mcol (sweepRows old r mrow mcol buf)

/-- The scratch buffer new_temperature after the double loop of lines 75-80 of app.py:
it starts as a copy of the previous field and every interior cell is overwritten with the
stencil value computed from the previous field. -/
def new_temperature (c : Config) (r : ℚ) (old : Field) : Field :=
  sweepRows old r (size_x c - 2) (size_y c - 2) old

/-- One iteration of the time stepping loop, lines 72-82 of app.py: the time step of the
frame is computed, the scratch buffer is filled from the previous field, and the working
field is replaced by the buffer. -/
def stepField (c : Config) (frame : ℕ) (old : Field) : Field :=
  new_temperature c (alpha * dt_frame frame / dx ^ 2) old

/-- The working field after n completed iterations of the loop of line 72 of app.py,
starting from the initial-condition field. -/
def simulate (c : Config) : ℕ → Field
  | 0 => temperature0 c
  | n + 1 => stepField c n (simulate c n)

/-- The elapsed simulated time in years reported on line 92 of app.py after frame+1 steps:
note the 1% growth factor in the summand, absent from the stepping loop itself. -/
def time_years (frame : ℕ) : ℚ :=
  (((List.range (frame + 1)).map (fun i : ℕ => dt_initial * (1 + (1 / 100 : ℚ) * (i : ℚ)))).sum)
    / 86400 / (36524 / 100)

/-- Possible setup failures named by the specification. -/
inductive SetupError where
  | invalidConfig
deriving DecidableEq

/-- Setup of one run: lines 27-58 of app.py are straight-line numpy statements with no
validation of the computed index ranges, so setup always succeeds and returns the composed
initial field; numpy silently ignores an empty slice and clips an out-of-bounds one. -/
def setup (c : Config) : Except SetupError Field := Except.ok (temperature0 c)

/-- Modelled from the spec: section 4.2 describes the Initial Condition Composer by direct
index ranges, with the hot-body node counts obtained by rounding to nearest; the rounding
function is a parameter so that the same description can be compared with the truncation
the code actually performs. -/
def composerSpec (rnd : ℚ → ℤ) (c : Config) : Field := fun i j =>
  if j = 0 then c.T_surface
  else if (x_center c : ℤ) ≤ (i : ℤ) ∧
      (i : ℤ) < (x_center c : ℤ) + rnd (c.horizontal_body_length_km * 1000 / dx) ∧
      (j : ℤ) < rnd (c.horizontal_body_depth_km * 1000 / dy)
    then c.T_hot
  else if (x_center c : ℤ) - (rnd (c.vertical_body_width_km * 1000 / dx)).fdiv 2 ≤ (i : ℤ) ∧
      (i : ℤ) < (x_center c : ℤ) + (rnd (c.vertical_body_width_km * 1000 / dx)).fdiv 2
    then c.T_hot
  else c.T_surface + c.Tgradient * depth c j

/-- A concrete configuration giving a 3 by 3 grid (domain 0.15 km at 50 m spacing), with
both hot bodies empty: used to instantiate theorems at concrete inputs. -/
def cSmall : Config where
  domain_size_x_km := 3 / 20
  domain_size_y_km := 3 / 20
  vertical_body_width_km := 1 / 20
  horizontal_body_length_km := 0
  horizontal_body_depth_km := 1 / 10
  T_hot := 1300
  T_surface := -63
  Tgradient := 10
  steps := 2

/-- A concrete configuration giving a 5 by 5 grid with both hot bodies empty, a strong
background gradient and a low hot-body temperature, so that the initial geotherm already
exceeds T_hot away from the surface. -/
def cBad : Config where
  domain_size_x_km := 1 / 4
  domain_size_y_km := 1 / 4
  vertical_body_width_km := 1 / 20
  horizontal_body_length_km := 0
  horizontal_body_depth_km := 1 / 2
  T_hot := 10
  T_surface := 0
  Tgradient := 100
  steps := 1

/-- A concrete configuration giving a 5 by 5 grid in which the vertical body width converts
to a single node, so that its slice x_center - width//2 : x_center + width//2 is empty,
while the horizontal body is present. -/
def cC6 : Config where
  domain_size_x_km := 1 / 4
  domain_size_y_km := 1 / 4
  vertical_body_width_km := 1 / 20
  horizontal_body_length_km := 1 / 10
  horizontal_body_depth_km := 1 / 10
  T_hot := 1300
  T_surface := -63
  Tgradient := 10
  steps := 200

/-- A concrete configuration giving a 5 by 5 grid whose vertical body width of 0.08 km
converts to 1.6 nodes: truncation gives 1 node (an empty slice) while rounding to nearest
gives 2 nodes. -/
def cC7 : Config where
  domain_size_x_km := 1 / 4
  domain_size_y_km := 1 / 4
  vertical_body_width_km := 2 / 25
  horizontal_body_length_km := 0
  horizontal_body_depth_km := 1 / 10
  T_hot := 1300
  T_surface := -63
  Tgradient := 10
  steps := 200

/-- A concrete configuration giving a 5 by 5 grid whose horizontal body depth of 2 km
converts to 40 nodes, so that its computed depth range y_end = 40 exceeds the grid bound
size_y = 5. -/
def cBig : Config where
  domain_size_x_km := 1 / 4
  domain_size_y_km := 1 / 4
  vertical_body_width_km := 1 / 10
  horizontal_body_length_km := 1 / 10
  horizontal_body_depth_km := 2
  T_hot := 1300
  T_surface := -63
  Tgradient := 10
  steps := 200

/-- A concrete temperature field used to instantiate theorems quantified over fields. -/
def probe : Field := fun a b => (a : ℚ) + 2 * (b : ℚ)

lemma sweepCols_apply (old : Field) (r : ℚ) (i m : ℕ) (buf : Field) (a b : ℕ) :
    sweepCols old r i m buf a b
      = if a = i ∧ 1 ≤ b ∧ b ≤ m then stencil old r i b else buf a b := by
  induction m with
  | zero =>
      have : ¬ (a = i ∧ 1 ≤ b ∧ b ≤ 0) := by omega
      rw [if_neg this]; rfl
  | succ m ih =>
      show writeCell old r i (m + 1) (sweepCols old r i m buf) a b = _
      unfold writeCell
      rw [ih]
      rcases eq_or_ne b (m + 1) with hb | hb
      · subst hb
        by_cases ha : a = i
        · rw [if_pos ⟨ha, rfl⟩, if_pos ⟨ha, by omega, le_refl _⟩]
        · rw [if_neg (by tauto), if_neg (by tauto), if_neg (by tauto)]
      · rw [if_neg (by tauto)]
        have : (a = i ∧ 1 ≤ b ∧ b ≤ m) ↔ (a = i ∧ 1 ≤ b ∧ b ≤ m + 1) := by
          constructor <;> rintro ⟨h1, h2, h3⟩ <;> exact ⟨h1, h2, by omega⟩
        simp only [this]

lemma sweepRows_apply (old : Field) (r : ℚ) (m mcol : ℕ) (buf : Field) (a b : ℕ) :
    sweepRows old r m mcol buf a b
      = if (1 ≤ a ∧ a ≤ m) ∧ (1 ≤ b ∧ b ≤ mcol) then stencil old r a b else buf a b := by
  induction m with
  | zero =>
      have : ¬ ((1 ≤ a ∧ a ≤ 0) ∧ (1 ≤ b ∧ b ≤ mcol)) := by omega
      rw [if_neg this]; rfl
  | succ m ih =>
      show sweepCols old r (m + 1) mcol (sweepRows old r m mcol buf) a b = _
      rw [sweepCols_apply, ih]
      rcases eq_or_ne a (m + 1) with ha | ha
      · subst ha
        by_cases hcol : 1 ≤ b ∧ b ≤ mcol
        · rw [if_pos ⟨rfl, hcol⟩, if_pos ⟨⟨by omega, le_refl _⟩, hcol⟩]
        · rw [if_neg (by tauto), if_neg (by omega), if_neg (by tauto)]
      · rw [if_neg (by tauto)]
        have : ((1 ≤ a ∧ a ≤ m) ∧ (1 ≤ b ∧ b ≤ mcol)) ↔ ((1 ≤ a ∧ a ≤ m + 1) ∧ (1 ≤ b ∧ b ≤ mcol)) := by
          constructor <;> rintro ⟨⟨h1, h2⟩, h3⟩ <;> exact ⟨⟨h1, by omega⟩, h3⟩
        simp only [this]

lemma new_temperature_apply (c : Config) (r : ℚ) (old : Field) (a b : ℕ) :
    new_temperature c r old a b
      = if (1 ≤ a ∧ a ≤ size_x c - 2) ∧ (1 ≤ b ∧ b ≤ size_y c - 2)
        then stencil old r a b else old a b := by
  unfold new_temperature
  rw [sweepRows_apply]

lemma new_temperature_interior (c : Config) (r : ℚ) (old : Field) (i j : ℕ)
    (h1 : 1 ≤ i) (h2 : i ≤ size_x c - 2) (h3 : 1 ≤ j) (h4 : j ≤ size_y c - 2) :
    new_temperature c r old i j = stencil old r i j := by
  rw [new_temperature_apply, if_pos ⟨⟨h1, h2⟩, h3, h4⟩]

lemma new_temperature_not_interior (c : Config) (r : ℚ) (old : Field) (i j : ℕ)
    (h : ¬ ((1 ≤ i ∧ i ≤ size_x c - 2) ∧ (1 ≤ j ∧ j ≤ size_y c - 2))) :
    new_temperature c r old i j = old i j := by
  rw [new_temperature_apply, if_neg h]

lemma coeff_eq (frame : ℕ) : alpha * dt_frame frame / dx ^ 2 = 1 / 4 := by
  norm_num [alpha, dt_frame, dt_initial, dx]

end App

namespace App

lemma size_x_cSmall : size_x cSmall = 3 := by
  norm_num [size_x, cSmall, pyInt, dx]
  simp only [Int.reduceToNat]

lemma size_y_cSmall : size_y cSmall = 3 := by
  norm_num [size_y, cSmall, pyInt, dy]
  simp only [Int.reduceToNat]

lemma size_x_cBad : size_x cBad = 5 := by
  norm_num [size_x, cBad, pyInt, dx]
  simp only [Int.reduceToNat]

lemma size_y_cBad : size_y cBad = 5 := by
  norm_num [size_y, cBad, pyInt, dy]
  simp only [Int.reduceToNat]

/-- Claim C1: at every step of the simulation loop, each interior node of the new field
equals the previous field's value plus alpha dt over dx squared times the five-point
Laplacian of the previous field, with every neighbor read from the previous step's field
only (synchronous Jacobi sweep through a scratch buffer that replaces the working field). -/
theorem C1_interior_update (c : Config) (n i j : ℕ)
    (h1 : 1 ≤ i) (h2 : i ≤ size_x c - 2) (h3 : 1 ≤ j) (h4 : j ≤ size_y c - 2) :
    simulate c (n + 1) i j
      = simulate c n i j + alpha * dt_frame n / dx ^ 2 *
          (simulate c n (i + 1) j + simulate c n (i - 1) j + simulate c n i (j + 1)
            + simulate c n i (j - 1) - 4 * simulate c n i j) := by
  show new_temperature c (alpha * dt_frame n / dx ^ 2) (simulate c n) i j = _
  rw [new_temperature_interior c _ _ i j h1 h2 h3 h4]
  rfl

theorem C1_witness :
    (1 ≤ size_x cSmall - 2 ∧ 1 ≤ size_y cSmall - 2) ∧
    simulate cSmall 1 1 1
      = simulate cSmall 0 1 1 + alpha * dt_frame 0 / dx ^ 2 *
          (simulate cSmall 0 2 1 + simulate cSmall 0 0 1 + simulate cSmall 0 1 2
            + simulate cSmall 0 1 0 - 4 * simulate cSmall 0 1 1) := by
  have hx : 1 ≤ size_x cSmall - 2 := by rw [size_x_cSmall]
  have hy : 1 ≤ size_y cSmall - 2 := by rw [size_y_cSmall]
  exact ⟨⟨hx, hy⟩, C1_interior_update cSmall 0 1 1 (le_refl 1) hx (le_refl 1) hy⟩

/-- Claim C2: the time step produced by the reference formula on line 32 of app.py puts the
scheme exactly on the two-dimensional explicit-diffusion stability boundary: alpha times dt
over dx squared equals one quarter exactly. -/
theorem C2_stability_boundary : alpha * dt_initial / dx ^ 2 = 1 / 4 := by
  norm_num [alpha, dt_initial, dx]

/-- Claim C3: after initialization and after each completed step, the whole top row of the
field equals the surface temperature. -/
theorem C3_surface_invariant (c : Config) (n : ℕ) :
    ∀ i < size_x c, simulate c n i 0 = c.T_surface := by
  induction n with
  | zero =>
      intro i hi
      show clampSurface c _ i 0 = _
      unfold clampSurface
      rw [if_pos ⟨hi, rfl⟩]
  | succ n ih =>
      intro i hi
      show new_temperature c (alpha * dt_frame n / dx ^ 2) (simulate c n) i 0 = _
      rw [new_temperature_not_interior c _ _ i 0 (by omega)]
      exact ih i hi

theorem C3_witness :
    1 < size_x cSmall ∧ simulate cSmall 2 1 0 = cSmall.T_surface := by
  have h1 : 1 < size_x cSmall := by rw [size_x_cSmall]; omega
  exact ⟨h1, C3_surface_invariant cSmall 2 1 h1⟩

/-- Claim C8: boundary nodes are not written by the stencil sweep; every boundary node of
the new field retains exactly its previous-step value, and only interior nodes change. -/
theorem C8_boundary_frozen (c : Config) (n i j : ℕ)
    (hi : i < size_x c) (hj : j < size_y c)
    (h : i = 0 ∨ i = size_x c - 1 ∨ j = 0 ∨ j = size_y c - 1) :
    simulate c (n + 1) i j = simulate c n i j := by
  show new_temperature c (alpha * dt_frame n / dx ^ 2) (simulate c n) i j = _
  exact new_temperature_not_interior c _ _ i j (by omega)

theorem C8_witness :
    (2 < size_x cSmall ∧ 1 < size_y cSmall ∧
      ((2 : ℕ) = 0 ∨ 2 = size_x cSmall - 1 ∨ (1 : ℕ) = 0 ∨ 1 = size_y cSmall - 1)) ∧
    simulate cSmall 1 2 1 = simulate cSmall 0 2 1 := by
  have hi : 2 < size_x cSmall := by rw [size_x_cSmall]; omega
  have hj : 1 < size_y cSmall := by rw [size_y_cSmall]; omega
  have h : (2 : ℕ) = 0 ∨ 2 = size_x cSmall - 1 ∨ (1 : ℕ) = 0 ∨ 1 = size_y cSmall - 1 := by
    rw [size_x_cSmall]; omega
  exact ⟨⟨hi, hj, h⟩, C8_boundary_frozen cSmall 0 2 1 hi hj h⟩

/-- Claim C9: because the update coefficient equals exactly one quarter, the interior update
of one step is, in exact arithmetic, the plain four-neighbor average of the previous field:
the two formulations of the stepper are equivalent functions of the previous field. -/
theorem C9_average_form (c : Config) (frame : ℕ) (old : Field) (i j : ℕ)
    (h1 : 1 ≤ i) (h2 : i ≤ size_x c - 2) (h3 : 1 ≤ j) (h4 : j ≤ size_y c - 2) :
    stepField c frame old i j
      = (old (i + 1) j + old (i - 1) j + old i (j + 1) + old i (j - 1)) / 4 := by
  unfold stepField
  rw [new_temperature_interior c _ old i j h1 h2 h3 h4, coeff_eq frame]
  unfold stencil
  ring

theorem C9_witness :
    (1 ≤ size_x cSmall - 2 ∧ 1 ≤ size_y cSmall - 2) ∧
    stepField cSmall 0 probe 1 1
      = (probe 2 1 + probe 0 1 + probe 1 2 + probe 1 0) / 4 := by
  have hx : 1 ≤ size_x cSmall - 2 := by rw [size_x_cSmall]
  have hy : 1 ≤ size_y cSmall - 2 := by rw [size_y_cSmall]
  exact ⟨⟨hx, hy⟩, C9_average_form cSmall 0 probe 1 1 (le_refl 1) hx (le_refl 1) hy⟩

end App

namespace App

lemma stepField_bounds (c : Config) (frame : ℕ) (old : Field) (lo hi : ℚ)
    (h : ∀ i < size_x c, ∀ j < size_y c, lo ≤ old i j ∧ old i j ≤ hi) :
    ∀ i < size_x c, ∀ j < size_y c,
      lo ≤ stepField c frame old i j ∧ stepField c frame old i j ≤ hi := by
  intro i hi' j hj
  unfold stepField
  by_cases hint : (1 ≤ i ∧ i ≤ size_x c - 2) ∧ (1 ≤ j ∧ j ≤ size_y c - 2)
  · rw [new_temperature_interior c _ old i j hint.1.1 hint.1.2 hint.2.1 hint.2.2,
      coeff_eq frame]
    unfold stencil
    obtain ⟨hE1, hE2⟩ := h (i + 1) (by omega) j hj
    obtain ⟨hW1, hW2⟩ := h (i - 1) (by omega) j hj
    obtain ⟨hS1, hS2⟩ := h i hi' (j + 1) (by omega)
    obtain ⟨hN1, hN2⟩ := h i hi' (j - 1) (by omega)
    obtain ⟨hC1, hC2⟩ := h i hi' j hj
    constructor <;> linarith
  · rw [new_temperature_not_interior c _ old i j hint]
    exact h i hi' j hj

/-- Claim C4 (amended): under the stability coefficient of the code, the synchronous sweep
never creates a value outside the extremes of the initial field: every closed interval
containing all initial values contains all values of every later field. The interval named
by the original claim, from min of T_surface and the initial minimum up to T_hot, fails
because the initial background gradient can exceed T_hot. -/
theorem C4_max_principle (c : Config) (lo hi : ℚ)
    (h : ∀ i < size_x c, ∀ j < size_y c, lo ≤ temperature0 c i j ∧ temperature0 c i j ≤ hi) :
    ∀ n, ∀ i < size_x c, ∀ j < size_y c,
      lo ≤ simulate c n i j ∧ simulate c n i j ≤ hi := by
  intro n
  induction n with
  | zero => exact h
  | succ n ih => exact stepField_bounds c n (simulate c n) lo hi ih

/-- Claim C4 is false as stated: with the stability invariant holding, for the configuration
cBad the interior node (1, 3) exceeds T_hot after one step, because the initial background
gradient already exceeds T_hot away from the hot bodies. -/
theorem C4_counterexample :
    alpha * dt_frame 0 / dx ^ 2 ≤ 1 / 4 ∧
    (1 ≤ size_x cBad - 2 ∧ 3 ≤ size_y cBad - 2) ∧
    ¬ (simulate cBad 1 1 3 ≤ cBad.T_hot) := by
  refine ⟨by rw [coeff_eq 0], ⟨?_, ?_⟩, ?_⟩
  · norm_num [size_x_cBad]
  · norm_num [size_y_cBad]
  · norm_num [simulate, stepField, new_temperature, sweepRows, sweepCols, writeCell, stencil,
      dt_frame, dt_initial, alpha,
      temperature0, clampSurface, setHorizontal, setVertical, setGradient, zeros,
      inSlice, sliceIdx, x_center, x_end, y_end, width, size_x, size_y, depth, pyInt, dx, dy,
      cBad, Int.fdiv, min_def, max_def]
    all_goals simp only [Int.reduceToNat]
    all_goals norm_num

theorem C4_witness :
    (∀ i < size_x cSmall, ∀ j < size_y cSmall,
      (-63 : ℚ) ≤ temperature0 cSmall i j ∧ temperature0 cSmall i j ≤ 0) ∧
    ((-63 : ℚ) ≤ simulate cSmall 2 1 1 ∧ simulate cSmall 2 1 1 ≤ 0) := by
  have h : ∀ i < size_x cSmall, ∀ j < size_y cSmall,
      (-63 : ℚ) ≤ temperature0 cSmall i j ∧ temperature0 cSmall i j ≤ 0 := by
    intro i hi j hj
    rw [size_x_cSmall] at hi
    rw [size_y_cSmall] at hj
    interval_cases i <;> interval_cases j <;>
      constructor <;>
      · norm_num [temperature0, clampSurface, setHorizontal, setVertical, setGradient, zeros,
          inSlice, sliceIdx, x_center, x_end, y_end, width, size_x, size_y, depth, pyInt,
          dx, dy, cSmall, Int.fdiv, min_def, max_def]
        all_goals simp only [Int.reduceToNat]
        all_goals norm_num
  have h1 : 1 < size_x cSmall := by rw [size_x_cSmall]; omega
  have h2 : 1 < size_y cSmall := by rw [size_y_cSmall]; omega
  exact ⟨h, C4_max_principle cSmall (-63) 0 h 2 1 h1 1 h2⟩

end App

namespace App

lemma time_sum_closed (n : ℕ) :
    ((List.range n).map (fun i : ℕ => dt_initial * (1 + (1 / 100 : ℚ) * (i : ℚ)))).sum
      = dt_initial * ((n : ℚ) + ((n * (n - 1) : ℕ) : ℚ) / 200) := by
  induction n with
  | zero => norm_num
  | succ n ih =>
      rw [List.range_succ, List.map_append, List.sum_append, ih]
      simp only [List.map_cons, List.map_nil, List.sum_cons, List.sum_nil, Nat.add_sub_cancel]
      cases n with
      | zero => norm_num
      | succ m =>
          simp only [Nat.add_sub_cancel]
          push_cast
          ring

lemma time_years_closed (frame : ℕ) :
    time_years frame
      = dt_initial * (((frame : ℚ) + 1) + (((frame + 1) * frame : ℕ) : ℚ) / 200)
          / 86400 / (36524 / 100) := by
  unfold time_years
  rw [time_sum_closed (frame + 1)]
  simp only [Nat.add_sub_cancel]
  push_cast
  ring

/-- Claim C5: the elapsed-time report of line 92 of app.py at the final frame of a
200-step run does not equal 200 times the constant time step converted to years; the
reported sum grows each summand by 1 percent, a factor the stepping loop itself never
applies, and comes out as 399 times the time step instead. -/
theorem C5_elapsed_report :
    time_years 199 = 399 * dt_initial / 86400 / (36524 / 100) ∧
    time_years 199 ≠ 200 * dt_initial / 86400 / (36524 / 100) := by
  have h : time_years 199 = 399 * dt_initial / 86400 / (36524 / 100) := by
    rw [time_years_closed 199]
    norm_num [dt_initial, dx, alpha]
  refine ⟨h, ?_⟩
  rw [h]
  norm_num [dt_initial, dx, alpha]

end App

namespace App

lemma inSlice_iff (n lo hi i : ℤ) (h0 : 0 ≤ lo) (h1 : 0 ≤ hi) (hin : i < n) :
    inSlice n lo hi i ↔ (lo ≤ i ∧ i < hi) := by
  unfold inSlice sliceIdx
  rw [if_neg (by omega), if_neg (by omega)]
  rw [min_def, min_def]
  split_ifs <;> omega

lemma setVertical_id_of_empty (c : Config)
    (h : sliceIdx (size_x c) ((x_center c : ℤ) + (width c).fdiv 2)
        ≤ sliceIdx (size_x c) ((x_center c : ℤ) - (width c).fdiv 2))
    (f : Field) (i j : ℕ) :
    setVertical c f i j = f i j := by
  unfold setVertical
  rw [if_neg]
  rintro ⟨⟨hlo, hhi⟩, -⟩
  omega

lemma temperature0_no_vertical (c : Config)
    (h : sliceIdx (size_x c) ((x_center c : ℤ) + (width c).fdiv 2)
        ≤ sliceIdx (size_x c) ((x_center c : ℤ) - (width c).fdiv 2))
    (i j : ℕ) :
    temperature0 c i j = clampSurface c (setHorizontal c (setGradient c zeros)) i j := by
  unfold temperature0 clampSurface setHorizontal
  rw [setVertical_id_of_empty c h]

lemma setHorizontal_id_of_empty (c : Config)
    (h : sliceIdx (size_x c) (x_end c) ≤ sliceIdx (size_x c) (x_center c)
      ∨ sliceIdx (size_y c) (y_end c) ≤ sliceIdx (size_y c) 0)
    (f : Field) (i j : ℕ) :
    setHorizontal c f i j = f i j := by
  unfold setHorizontal
  rw [if_neg]
  rintro ⟨⟨h1x, h2x⟩, h1y, h2y⟩
  rcases h with h | h <;> omega

lemma temperature0_no_horizontal (c : Config)
    (h : sliceIdx (size_x c) (x_end c) ≤ sliceIdx (size_x c) (x_center c)
      ∨ sliceIdx (size_y c) (y_end c) ≤ sliceIdx (size_y c) 0)
    (i j : ℕ) :
    temperature0 c i j = clampSurface c (setVertical c (setGradient c zeros)) i j := by
  unfold temperature0 clampSurface
  rw [setHorizontal_id_of_empty c h]

/-- Claim C6 (amended): for every configuration in which a computed hot-body index range is
empty or exceeds the grid bounds, setup performs no validation and still succeeds, returning
the allocated, fully initialized field. An empty vertical range writes nothing, so the field
is the composition without the vertical body; an empty horizontal range (either axis)
likewise leaves the horizontal body out; and an out-of-bounds range is clipped to the grid:
an x_end past the right edge makes the horizontal slice cover exactly the nodes from
x_center to the edge, and a y_end past the bottom makes its depth slice cover every depth. -/
theorem C6_no_validation (c : Config)
    (_h : sliceIdx (size_x c) ((x_center c : ℤ) + (width c).fdiv 2)
          ≤ sliceIdx (size_x c) ((x_center c : ℤ) - (width c).fdiv 2)
      ∨ sliceIdx (size_x c) (x_end c) ≤ sliceIdx (size_x c) (x_center c)
      ∨ sliceIdx (size_y c) (y_end c) ≤ sliceIdx (size_y c) 0
      ∨ (size_x c : ℤ) < x_end c
      ∨ (size_y c : ℤ) < y_end c) :
    setup c = Except.ok (temperature0 c)
    ∧ (sliceIdx (size_x c) ((x_center c : ℤ) + (width c).fdiv 2)
          ≤ sliceIdx (size_x c) ((x_center c : ℤ) - (width c).fdiv 2) →
        ∀ i j, temperature0 c i j = clampSurface c (setHorizontal c (setGradient c zeros)) i j)
    ∧ (sliceIdx (size_x c) (x_end c) ≤ sliceIdx (size_x c) (x_center c)
        ∨ sliceIdx (size_y c) (y_end c) ≤ sliceIdx (size_y c) 0 →
        ∀ i j, temperature0 c i j = clampSurface c (setVertical c (setGradient c zeros)) i j)
    ∧ ((size_x c : ℤ) < x_end c →
        ∀ i < size_x c,
          (inSlice (size_x c) (x_center c) (x_end c) i ↔ (x_center c : ℤ) ≤ (i : ℤ)))
    ∧ ((size_y c : ℤ) < y_end c →
        ∀ j < size_y c, inSlice (size_y c) 0 (y_end c) j) := by
  refine ⟨rfl, fun hv i j => temperature0_no_vertical c hv i j,
    fun hh i j => temperature0_no_horizontal c hh i j,
    fun hx i hi => ?_, fun hy j hj => ?_⟩
  · have hxc : x_center c ≤ size_x c := Nat.div_le_self _ _
    have hiZ : (i : ℤ) < (size_x c : ℤ) := by exact_mod_cast hi
    have hxcZ : ((x_center c : ℕ) : ℤ) ≤ (size_x c : ℤ) := by exact_mod_cast hxc
    unfold inSlice sliceIdx
    rw [if_neg (by omega), if_neg (by omega)]
    rw [min_def, min_def]
    split_ifs <;> omega
  · have hjZ : (j : ℤ) < (size_y c : ℤ) := by exact_mod_cast hj
    have hjnn : (0 : ℤ) ≤ (j : ℤ) := Int.natCast_nonneg j
    unfold inSlice sliceIdx
    rw [if_neg (by omega), if_neg (by omega)]
    rw [min_def, min_def]
    constructor <;> omega

/-- Claim C6 is false as stated: for the configuration cC6 the computed vertical-body index
range is empty, yet setup does not fail with InvalidConfig: it returns the initialized
field, which moreover differs from the zero allocation. -/
theorem C6_counterexample :
    (x_center cC6 : ℤ) - (width cC6).fdiv 2 = (x_center cC6 : ℤ) + (width cC6).fdiv 2 ∧
    setup cC6 = Except.ok (temperature0 cC6) ∧
    temperature0 cC6 2 1 ≠ zeros 2 1 := by
  refine ⟨?_, rfl, ?_⟩
  · norm_num [x_center, width, cC6, pyInt, dx, Int.fdiv, size_x]
  · norm_num [temperature0, clampSurface, setHorizontal, setVertical, setGradient, zeros,
      inSlice, sliceIdx, x_center, x_end, y_end, width, size_x, size_y, depth, pyInt,
      dx, dy, cC6, Int.fdiv, min_def, max_def]

theorem C6_witness :
    (sliceIdx (size_x cC6) ((x_center cC6 : ℤ) + (width cC6).fdiv 2)
        ≤ sliceIdx (size_x cC6) ((x_center cC6 : ℤ) - (width cC6).fdiv 2)) ∧
    (size_y cBig : ℤ) < y_end cBig ∧
    setup cC6 = Except.ok (temperature0 cC6) ∧
    temperature0 cC6 1 2 = clampSurface cC6 (setHorizontal cC6 (setGradient cC6 zeros)) 1 2 ∧
    inSlice (size_y cBig) 0 (y_end cBig) 4 := by
  have h : sliceIdx (size_x cC6) ((x_center cC6 : ℤ) + (width cC6).fdiv 2)
      ≤ sliceIdx (size_x cC6) ((x_center cC6 : ℤ) - (width cC6).fdiv 2) := by
    norm_num [sliceIdx, x_center, width, cC6, pyInt, dx, Int.fdiv, size_x]
  have hy : (size_y cBig : ℤ) < y_end cBig := by
    norm_num [size_y, y_end, cBig, pyInt, dy]
  have hj : (4 : ℕ) < size_y cBig := by
    norm_num [size_y, cBig, pyInt, dy]
  refine ⟨h, hy, (C6_no_validation cC6 (Or.inl h)).1,
    (C6_no_validation cC6 (Or.inl h)).2.1 h 1 2,
    (C6_no_validation cBig (Or.inr (Or.inr (Or.inr (Or.inr hy))))).2.2.2.2 hy 4 hj⟩

/-- Claim C10: whenever the vertical body width converts to exactly one node, the computed
slice from x_center - width//2 to x_center + width//2 is empty, so no vertical dike is
placed: no error is raised, and the field after initialization equals the background
gradient plus horizontal body plus surface clamp only. -/
theorem C10_single_node_width (c : Config)
    (h : pyInt (c.vertical_body_width_km * 1000 / dx) = 1) :
    setup c = Except.ok (temperature0 c) ∧
    ∀ i j, temperature0 c i j = clampSurface c (setHorizontal c (setGradient c zeros)) i j := by
  have hw : width c = 1 := h
  have hfd : (width c).fdiv 2 = 0 := by rw [hw]; rfl
  have hs : sliceIdx (size_x c) ((x_center c : ℤ) + (width c).fdiv 2)
      ≤ sliceIdx (size_x c) ((x_center c : ℤ) - (width c).fdiv 2) := by
    rw [hfd]
    simp
  exact ⟨rfl, fun i j => temperature0_no_vertical c hs i j⟩

theorem C10_witness :
    pyInt (cC6.vertical_body_width_km * 1000 / dx) = 1 ∧
    setup cC6 = Except.ok (temperature0 cC6) ∧
    temperature0 cC6 3 1 = clampSurface cC6 (setHorizontal cC6 (setGradient cC6 zeros)) 3 1 := by
  have h : pyInt (cC6.vertical_body_width_km * 1000 / dx) = 1 := by
    norm_num [pyInt, cC6, dx]
  exact ⟨h, (C10_single_node_width cC6 h).1, (C10_single_node_width cC6 h).2 3 1⟩

end App

namespace App

/-- Claim C7 is false as stated: the composer computes node counts with Python int
truncation, not rounding to nearest: at cC7 the width of 0.08 km is 1.6 nodes, which the
code truncates to 1 (an empty slice) while rounding to nearest gives 2 hot columns, so the
two fields differ at node (1, 2). -/
theorem C7_counterexample : temperature0 cC7 1 2 ≠ composerSpec round cC7 1 2 := by
  norm_num [temperature0, composerSpec, clampSurface, setHorizontal, setVertical, setGradient,
    zeros, inSlice, sliceIdx, x_center, x_end, y_end, width, size_x, size_y, depth, pyInt,
    dx, dy, cC7, Int.fdiv, min_def, max_def, round_eq]
  all_goals simp only [Int.reduceToNat]
  all_goals norm_num

/-- Claim C7 (amended): the hot-body node counts are computed with truncation toward zero
(Python int), not rounding to nearest; with that correction the composer matches the direct
range description: for every configuration whose computed counts are nonnegative and whose
vertical slice does not underflow the left edge, the initialized field agrees with the
spec-style composer at every grid node. -/
theorem C7_truncated_ranges (c : Config)
    (hw : 0 ≤ width c)
    (hlo : 0 ≤ (x_center c : ℤ) - (width c).fdiv 2)
    (hlen : 0 ≤ pyInt (c.horizontal_body_length_km * 1000 / dx))
    (hye : 0 ≤ y_end c) :
    ∀ i < size_x c, ∀ j < size_y c, temperature0 c i j = composerSpec pyInt c i j := by
  intro i hi j hj
  have hiZ : (i : ℤ) < (size_x c : ℤ) := by exact_mod_cast hi
  have hjZ : (j : ℤ) < (size_y c : ℤ) := by exact_mod_cast hj
  have hfd : 0 ≤ (width c).fdiv 2 := Int.fdiv_nonneg hw (by norm_num)
  have hjnn : (0 : ℤ) ≤ (j : ℤ) := Int.natCast_nonneg j
  have hH1 : inSlice (size_x c) (x_center c) (x_end c) i
      ↔ (((x_center c) : ℤ) ≤ (i : ℤ) ∧ (i : ℤ) < x_end c) :=
    inSlice_iff _ _ _ _ (Int.natCast_nonneg _) (by unfold x_end; omega) hiZ
  have hH2 : inSlice (size_y c) 0 (y_end c) j ↔ ((0 : ℤ) ≤ (j : ℤ) ∧ (j : ℤ) < y_end c) :=
    inSlice_iff _ _ _ _ le_rfl hye hjZ
  have hV : inSlice (size_x c) ((x_center c : ℤ) - (width c).fdiv 2)
        ((x_center c : ℤ) + (width c).fdiv 2) i
      ↔ ((x_center c : ℤ) - (width c).fdiv 2 ≤ (i : ℤ)
          ∧ (i : ℤ) < (x_center c : ℤ) + (width c).fdiv 2) :=
    inSlice_iff _ _ _ _ hlo (by omega) hiZ
  unfold temperature0 clampSurface setHorizontal setVertical setGradient zeros composerSpec
  by_cases hj0 : j = 0
  · subst hj0
    rw [if_pos ⟨hi, rfl⟩, if_pos rfl]
  · rw [if_neg (fun hc => hj0 hc.2), if_neg hj0]
    by_cases hH : ((x_center c : ℤ) ≤ (i : ℤ)
        ∧ (i : ℤ) < (x_center c : ℤ) + pyInt (c.horizontal_body_length_km * 1000 / dx)
        ∧ (j : ℤ) < pyInt (c.horizontal_body_depth_km * 1000 / dy))
    · rw [if_pos ⟨hH1.mpr ⟨hH.1, hH.2.1⟩, hH2.mpr ⟨hjnn, hH.2.2⟩⟩, if_pos hH]
    · have hHe : ¬ ((x_center c : ℤ) ≤ (i : ℤ) ∧ (i : ℤ) < x_end c ∧ (j : ℤ) < y_end c) := hH
      have hH' : ¬ (inSlice (size_x c) (x_center c) (x_end c) i
          ∧ inSlice (size_y c) 0 (y_end c) j) := by
        rw [hH1, hH2]
        tauto
      rw [if_neg hH', if_neg hH]
      by_cases hV' : ((x_center c : ℤ)
            - (pyInt (c.vertical_body_width_km * 1000 / dx)).fdiv 2 ≤ (i : ℤ)
          ∧ (i : ℤ) < (x_center c : ℤ)
            + (pyInt (c.vertical_body_width_km * 1000 / dx)).fdiv 2)
      · rw [if_pos ⟨hV.mpr hV', hj⟩, if_pos hV']
      · rw [if_neg (fun hc => hV' (hV.mp hc.1)), if_neg hV', if_pos ⟨hi, hj⟩]

end App

namespace App

theorem C7_witness :
    (0 ≤ width cC7 ∧ 0 ≤ (x_center cC7 : ℤ) - (width cC7).fdiv 2
      ∧ 0 ≤ pyInt (cC7.horizontal_body_length_km * 1000 / dx) ∧ 0 ≤ y_end cC7) ∧
    (1 < size_x cC7 ∧ 1 < size_y cC7) ∧
    temperature0 cC7 1 1 = composerSpec pyInt cC7 1 1 := by
  have hw : 0 ≤ width cC7 := by norm_num [width, cC7, pyInt, dx]
  have hlo : 0 ≤ (x_center cC7 : ℤ) - (width cC7).fdiv 2 := by
    norm_num [x_center, width, cC7, pyInt, dx, size_x, Int.fdiv]
  have hlen : 0 ≤ pyInt (cC7.horizontal_body_length_km * 1000 / dx) := by
    norm_num [cC7, pyInt, dx]
  have hye : 0 ≤ y_end cC7 := by norm_num [y_end, cC7, pyInt, dy]
  have hx : 1 < size_x cC7 := by
    norm_num [size_x, cC7, pyInt, dx]
  have hy : 1 < size_y cC7 := by
    norm_num [size_y, cC7, pyInt, dy]
  exact ⟨⟨hw, hlo, hlen, hye⟩, ⟨hx, hy⟩, C7_truncated_ranges cC7 hw hlo hlen hye 1 hx 1 hy⟩

end App
